import Mathlib

/-!
Shallow embedding of the dashboard rendering core of the Hualien recall-vote
visualization (`map_data_presentaiton.py` together with the configuration
tables of `utils.py`).

Modelling conventions:
* Numeric cell values are rationals (`ℚ`); the Python code manipulates floats
  with exact decimal literals (0.02, 1.02, 1.05) which we write as the
  corresponding rationals.
* A data frame is the list of its rows; `df.iloc[i]` is positional access,
  `df[c].max()` is the maximum of column `c`.
* Geometries keep exactly what the code consumes: the exterior ring of a
  polygon, or the list of exterior rings of a multi-polygon
  (`geom.exterior.coords` / `poly.exterior.coords` for `poly` in `geom.geoms`).
* Figures are modelled by the attributes the rendering functions actually
  decide: selected columns, color scale, color/axis ranges, highlight overlay
  traces, diagonal line endpoints.  Purely presentational layout values
  (pixel heights, margins, axis title text) are outside the model.
* Python truthiness of an optional string (`if not value:`) is `none` or the
  empty string.
-/

/-- Exterior ring(s) of a row geometry, as consumed by the highlight code:
a single polygon keeps its exterior ring, a multi-polygon the list of the
exterior rings of its parts. -/
inductive Geometry where
  | polygon (exterior : List (ℚ × ℚ))
  | multiPolygon (parts : List (List (ℚ × ℚ)))
deriving DecidableEq, Repr

/-- One data-frame row: named numeric measures plus a geometry. -/
structure Row where
  values : List (String × ℚ)
  geometry : Geometry
deriving DecidableEq, Repr

/-- Column access on a row (`row[c]`); all referenced columns are assumed
present, absent lookups default to 0. -/
def Row.get (r : Row) (c : String) : ℚ :=
  (r.values.lookup c).getD 0

/-- A data frame is its list of rows, positionally indexed. -/
def DataFrame : Type := List Row

/-- Row count, `len(df)`. -/
def DataFrame.nrows (df : DataFrame) : ℕ :=
  List.length df

/-- Positional row access, `df.iloc[i]`; callers guard the bound. -/
def DataFrame.row (df : DataFrame) (i : ℕ) : Row :=
  List.getD df i ⟨[], Geometry.polygon []⟩

/-- The values of column `c`, in row order. -/
def DataFrame.colVals (df : DataFrame) (c : String) : List ℚ :=
  List.map (fun r => r.get c) df

/-- Maximum of a list of rationals (`Series.max`); 0 on the empty list,
which the Python code never hits on the loaded dataset. -/
def listMax : List ℚ → ℚ
  | [] => 0
  | [a] => a
  | a :: b :: t => max a (listMax (b :: t))

/-- Minimum of a list of rationals (`Series.min`); 0 on the empty list. -/
def listMin : List ℚ → ℚ
  | [] => 0
  | [a] => a
  | a :: b :: t => min a (listMin (b :: t))

/-- Column maximum, `df[c].max()`. -/
def DataFrame.colMax (df : DataFrame) (c : String) : ℚ :=
  listMax (df.colVals c)

/-- Column minimum, `df[c].min()`. -/
def DataFrame.colMin (df : DataFrame) (c : String) : ℚ :=
  listMin (df.colVals c)

/-- Infix containment on character lists, used to model Python's
substring test `needle in hay`. -/
def charsContain (needle : List Char) : List Char → Bool
  | [] => needle.isEmpty
  | c :: rest => List.isPrefixOf needle (c :: rest) || charsContain needle rest

/-- The rate-column naming convention of the code:
`"rate" in column.lower()` (lower-casing character by character). -/
def containsRate (column : String) : Bool :=
  charsContain "rate".data (column.data.map Char.toLower)

/-- Python truthiness test on an optional string: `not value` holds for
`None` and for the empty string. -/
def falsyStr : Option String → Bool
  | none => true
  | some s => s.isEmpty

/-- The `scatter_configs` table of `utils.py`: category name, upper column,
lower column. -/
def scatter_configs : List (String × String × String) :=
  [("Support vote rate", "legislator_rate", "against_recall_rate"),
   ("Support vote", "legislator_vote", "against_recall_vote"),
   ("Voting Rate", "legislator_voting_rate", "recall_voting_rate"),
   ("Total Voter", "legislator_total_voter_count", "recall_vote_total_voter_count")]

/-- `calculate_consistent_ranges(df, upper_col, lower_col, x_axis_column)`:
x-range padded 2 percent on each side of the column maximum; if both selected
columns match the rate convention the shared y/color range is [0, 1.05],
otherwise [0, max of the two column maxima times 1.05].
Returns (x_range, y_range, color_range) with each range as (low, high). -/
def calculate_consistent_ranges (df : DataFrame) (upper_col lower_col x_axis_column : String) :
    (ℚ × ℚ) × (ℚ × ℚ) × (ℚ × ℚ) :=
  let x_max := df.colMax x_axis_column
  let x_range : ℚ × ℚ := (-x_max * (2/100), x_max * (102/100))
  if containsRate upper_col && containsRate lower_col then
    (x_range, (0, 105/100), (0, 105/100))
  else
    let max_val := max (df.colMax upper_col) (df.colMax lower_col)
    (x_range, (0, max_val * (105/100)), (0, max_val * (105/100)))

/-- Sample dataset mirroring the three-row scenario of the documentation:
`legislator_rate = [0.4, 0.6, 0.8]`, `against_recall_rate = [0.3, 0.5, 0.7]`,
a density x-column with maximum 100, and simple geometries (the third row a
multi-polygon). -/
def sampleDf : DataFrame :=
  [⟨[("legislator_rate", 2/5), ("against_recall_rate", 3/10),
     ("legislator_total_voter_density", 100),
     ("legislator_vote", 400), ("against_recall_vote", 300)],
    Geometry.polygon [(121, 23), (122, 23), (122, 24), (121, 23)]⟩,
   ⟨[("legislator_rate", 3/5), ("against_recall_rate", 1/2),
     ("legislator_total_voter_density", 80),
     ("legislator_vote", 600), ("against_recall_vote", 500)],
    Geometry.polygon [(120, 23), (121, 23), (121, 24), (120, 23)]⟩,
   ⟨[("legislator_rate", 4/5), ("against_recall_rate", 7/10),
     ("legislator_total_voter_density", 90),
     ("legislator_vote", 800), ("against_recall_vote", 700)],
    Geometry.multiPolygon [[(119, 22), (120, 22), (120, 23), (119, 22)],
                           [(118, 21), (119, 21), (119, 22), (118, 21)]]⟩]

/-- A named figure trace, as far as the map-highlight logic consults it: its
`name` attribute and, for highlight outline traces, the ring coordinates fed
to `lon`/`lat`.  Plotly leaves `name` empty when unset. -/
structure Trace where
  name : String
  coords : List (ℚ × ℚ)
deriving DecidableEq, Repr

/-- Scatter figure built by `create_scatter_plot`: the chosen columns, color
scale, color/axis ranges, and the list of highlight overlay markers (each an
(x, y) position; the code names them "Highlighted", skips hover and legend). -/
structure ScatterFig where
  xCol : String
  yCol : String
  colorScale : String
  colorRange : ℚ × ℚ
  xRange : ℚ × ℚ
  yRange : ℚ × ℚ
  highlights : List (ℚ × ℚ)
deriving DecidableEq, Repr

/-- Cross-analysis scatter figure built by `create_cross_scatter_plot`:
columns, color scale, the diagonal reference line endpoints, highlight
markers, and the ranges installed on the two axes. -/
structure CrossFig where
  xCol : String
  yCol : String
  colorScale : String
  diagonal : (ℚ × ℚ) × (ℚ × ℚ)
  highlights : List (ℚ × ℚ)
  xRange : ℚ × ℚ
  yRange : ℚ × ℚ
deriving DecidableEq, Repr

/-- Map figure built by `create_map_plot`: either the bare `go.Figure()`
returned on a missing column, or a choropleth with its column, color scale
and range, highlight overlay traces, and optional colorbar title. -/
inductive MapFig where
  | emptyFig
  | choropleth (selectedCol : String) (colorScale : String) (colorRange : ℚ × ℚ)
      (highlightTraces : List Trace) (colorbarTitle : Option String)
deriving DecidableEq, Repr

/-- Highlight overlay traces for the map: exactly what both copies of the
highlight block build — for a single polygon one trace named "Highlighted"
over the exterior ring; for a multi-polygon one trace per part, named
"Highlighted_0", "Highlighted_1", ... over each exterior ring. -/
def geomHighlightTraces : Geometry → List Trace
  | Geometry.polygon exterior => [⟨"Highlighted", exterior⟩]
  | Geometry.multiPolygon parts =>
      parts.enum.map (fun p => ⟨"Highlighted_" ++ toString p.1, p.2⟩)

/-- `create_scatter_plot(df, y_column, x_column, highlight_index, x_range,
y_range, color_range, ...)`: rate-named y-columns get the diverging RdYlGn
scale with default range [0, 1], others the sequential Viridis scale with
default range [0, column max]; a highlight marker is added only for an
in-bounds index at that row's (x, y) position. -/
def create_scatter_plot (df : DataFrame) (y_column x_column : String)
    (highlight_index : Option ℤ) (x_range y_range color_range : Option (ℚ × ℚ)) :
    ScatterFig :=
  let rate := containsRate y_column
  let color_scale := if rate then "RdYlGn" else "Viridis"
  let cr := color_range.getD (if rate then (0, 1) else (0, df.colMax y_column))
  let yr := y_range.getD (if rate then (0, 1) else (0, df.colMax y_column))
  let xr := x_range.getD (df.colMin x_column, df.colMax x_column)
  let highlights : List (ℚ × ℚ) :=
    match highlight_index with
    | some i =>
        if 0 ≤ i ∧ i < (df.nrows : ℤ) then
          [((df.row i.toNat).get x_column, (df.row i.toNat).get y_column)]
        else []
    | none => []
  ⟨x_column, y_column, color_scale, cr, xr, yr, highlights⟩

/-- `create_map_plot(df, selected_column, highlight_index, colorbar_title)`:
an untruthy column yields the bare `go.Figure()`; otherwise a choropleth with
the rate-vs-count color convention, plus the highlight outline traces of the
indexed row geometry when the index is in bounds.  The colorbar title is set
only when a truthy title is supplied. -/
def create_map_plot (df : DataFrame) (selected_column : Option String)
    (highlight_index : Option ℤ) (colorbar_title : Option String) : MapFig :=
  if falsyStr selected_column then MapFig.emptyFig
  else
    let col := selected_column.getD ""
    let cfg : (ℚ × ℚ) × String :=
      if containsRate col then ((0, 1), "RdYlGn") else ((0, df.colMax col), "Viridis")
    let hts : List Trace :=
      match highlight_index with
      | some i =>
          if 0 ≤ i ∧ i < (df.nrows : ℤ) then
            geomHighlightTraces (df.row i.toNat).geometry
          else []
      | none => []
    let title := match colorbar_title with
      | some t => if t.isEmpty then none else some t
      | none => none
    MapFig.choropleth col cfg.2 cfg.1 hts title

/-- Highlight trace list of a map figure. -/
def MapFig.highlightTraces : MapFig → List Trace
  | MapFig.emptyFig => []
  | MapFig.choropleth _ _ _ hts _ => hts

/-- `create_cross_scatter_plot(df, x_column, y_column, highlight_index)`:
both axes share the range [0, max(x max, y max) * 1.05], the color scale is
always Viridis, a dashed diagonal runs between the two range endpoints, and
an in-bounds highlight index adds one marker at that row's (x, y). -/
def create_cross_scatter_plot (df : DataFrame) (x_column y_column : String)
    (highlight_index : Option ℤ) : CrossFig :=
  let x_max := df.colMax x_column
  let y_max := df.colMax y_column
  let axis_max := max x_max y_max
  let axis_range : ℚ × ℚ := (0, axis_max * (105/100))
  let diagonal : (ℚ × ℚ) × (ℚ × ℚ) :=
    ((axis_range.1, axis_range.1), (axis_range.2, axis_range.2))
  let highlights : List (ℚ × ℚ) :=
    match highlight_index with
    | some i =>
        if 0 ≤ i ∧ i < (df.nrows : ℤ) then
          [((df.row i.toNat).get x_column, (df.row i.toNat).get y_column)]
        else []
    | none => []
  ⟨x_column, y_column, "Viridis", diagonal, highlights, axis_range, axis_range⟩

/-- One entry of a hover payload's `points` list; `pointIndex` is `none` when
the "pointIndex" key is absent. -/
structure HoverPoint where
  pointIndex : Option ℤ
deriving DecidableEq, Repr

/-- A hover payload: `points` is `none` when the "points" key is absent. -/
structure HoverData where
  points : Option (List HoverPoint)
deriving DecidableEq, Repr

/-- The guard each branch of the hover chain evaluates: the payload exists,
has a non-empty `points` list, and its first point carries a `pointIndex`. -/
def hoverEligible : Option HoverData → Bool
  | none => false
  | some hd =>
      match hd.points with
      | none => false
      | some [] => false
      | some (p :: _) => p.pointIndex.isSome

/-- The `pointIndex` of the first point of a hover payload, when present. -/
def hoverFirstIndex : Option HoverData → Option ℤ
  | none => none
  | some hd =>
      match hd.points with
      | some (p :: _) => p.pointIndex
      | _ => none

/-- The in-branch bound check `if 0 <= hovered_index < len(df)`: an in-bounds
index becomes the highlight, anything else leaves it `None`. -/
def boundsCheck (n : ℕ) (i : ℤ) : Option ℕ :=
  if 0 ≤ i ∧ i < (n : ℤ) then some i.toNat else none

/-- The highlight resolution chain of
`update_all_visualizations_with_highlight` (lines 531-592): an `if`/`elif`
cascade over the five hover payloads in the order map, upper scatter, lower
scatter, cross upper scatter, cross lower scatter.  The first payload whose
guard passes is the only one consulted; its index is then bound-checked. -/
def resolveHighlightIndex (n : ℕ) (mapH upperH lowerH crossUpperH crossLowerH :
    Option HoverData) : Option ℕ :=
  if hoverEligible mapH then
    match hoverFirstIndex mapH with
    | some i => boundsCheck n i
    | none => none
  else if hoverEligible upperH then
    match hoverFirstIndex upperH with
    | some i => boundsCheck n i
    | none => none
  else if hoverEligible lowerH then
    match hoverFirstIndex lowerH with
    | some i => boundsCheck n i
    | none => none
  else if hoverEligible crossUpperH then
    match hoverFirstIndex crossUpperH with
    | some i => boundsCheck n i
    | none => none
  else if hoverEligible crossLowerH then
    match hoverFirstIndex crossLowerH with
    | some i => boundsCheck n i
    | none => none
  else none

/-- The valid index contributed by one hover event, if any: present and
carrying an in-bounds index. -/
def eventValidIndex (n : ℕ) (h : Option HoverData) : Option ℕ :=
  if hoverEligible h then
    match hoverFirstIndex h with
    | some i => boundsCheck n i
    | none => none
  else none

/-- Resolution rule as the documentation words it: the first event, in the
fixed priority order, that is present with a valid point index wins; written
to be compared against `resolveHighlightIndex`. -/
def resolveHighlightClaimed (n : ℕ) (mapH upperH lowerH crossUpperH crossLowerH :
    Option HoverData) : Option ℕ :=
  (((eventValidIndex n mapH).orElse fun _ => (eventValidIndex n upperH)).orElse
      fun _ => ((eventValidIndex n lowerH).orElse fun _ =>
        (eventValidIndex n crossUpperH))).orElse
    fun _ => (eventValidIndex n crossLowerH)

/-- Resolution rule the code actually implements, restated declaratively:
only the first *present* event is consulted, and its index is then
bound-checked; lower-priority events are ignored once a higher-priority
payload passes the presence guard. -/
def resolveHighlightAmended (n : ℕ) (mapH upperH lowerH crossUpperH crossLowerH :
    Option HoverData) : Option ℕ :=
  match [mapH, upperH, lowerH, crossUpperH, crossLowerH].find? hoverEligible with
  | some h =>
      match hoverFirstIndex h with
      | some i => boundsCheck n i
      | none => none
  | none => none

/-- The trace filter of the incremental map path: keep a trace unless its
name starts with "Highlighted". -/
def stripHighlightTraces (traces : List Trace) : List Trace :=
  traces.filter (fun t => !(t.name.startsWith "Highlighted"))

/-- The incremental map update of the hover callback (lines 626-681): rebuild
the figure from the previous figure data minus any trace whose name starts
with "Highlighted", then append the outline traces of the highlighted row
geometry when a highlight index is set. -/
def updateMapIncremental (df : DataFrame) (currentTraces : List Trace)
    (highlight_index : Option ℕ) : List Trace :=
  let kept := stripHighlightTraces currentTraces
  match highlight_index with
  | some i => kept ++ geomHighlightTraces (df.row i).geometry
  | none => kept

/-- One output figure of the hover callback. -/
inductive Fig where
  | blank
  | scatterF (f : ScatterFig)
  | crossF (f : CrossFig)
  | mapF (f : MapFig)
  | mapTracesF (traces : List Trace)
deriving DecidableEq, Repr

/-- The number of `Output(...)` declarations on the hover callback:
upper-scatter, lower-scatter, cross-upper-scatter, cross-lower-scatter,
map-graph. -/
def callbackDeclaredOutputs : ℕ := 5

/-- `update_all_visualizations_with_highlight`: the combined hover callback.
When any selection control is untruthy it returns the four-element tuple
`go.Figure(), go.Figure(), go.Figure(), go.Figure()`; otherwise it resolves
the highlight index over the five hover payloads, computes shared ranges,
renders the two paired scatter plots and the two cross scatter plots, and
either patches the previous map figure incrementally or rebuilds the map.
`none` models the `KeyError` Python raises on an unknown category. -/
def update_all_visualizations_with_highlight (df : DataFrame)
    (map_hoverData upper_hoverData lower_hoverData cross_upper_hoverData
      cross_lower_hoverData : Option HoverData)
    (y_axis_type x_axis_column main_dropdown : Option String)
    (current_map_fig : Option (List Trace)) : Option (List Fig) :=
  if falsyStr y_axis_type || falsyStr x_axis_column || falsyStr main_dropdown then
    some [Fig.blank, Fig.blank, Fig.blank, Fig.blank]
  else
    match scatter_configs.lookup (y_axis_type.getD "") with
    | none => none
    | some (upper_col, lower_col) =>
      let xc := x_axis_column.getD ""
      let highlight_index :=
        resolveHighlightIndex df.nrows map_hoverData upper_hoverData
          lower_hoverData cross_upper_hoverData cross_lower_hoverData
      let hi : Option ℤ := highlight_index.map (fun n => (n : ℤ))
      let ranges := calculate_consistent_ranges df upper_col lower_col xc
      let upper_fig := create_scatter_plot df upper_col xc hi
        (some ranges.1) (some ranges.2.1) (some ranges.2.2)
      let lower_fig := create_scatter_plot df lower_col xc hi
        (some ranges.1) (some ranges.2.1) (some ranges.2.2)
      let cross_upper_fig :=
        create_cross_scatter_plot df "legislator_rate" "against_recall_rate" hi
      let cross_lower_fig :=
        create_cross_scatter_plot df "legislator_vote" "against_recall_vote" hi
      let map_fig : Fig :=
        match current_map_fig with
        | some traces => Fig.mapTracesF (updateMapIncremental df traces highlight_index)
        | none => Fig.mapF (create_map_plot df main_dropdown hi main_dropdown)
      some [Fig.scatterF upper_fig, Fig.scatterF lower_fig,
            Fig.crossF cross_upper_fig, Fig.crossF cross_lower_fig, map_fig]

/-- Hover payload carrying a single point with the given index. -/
def hoverOn (i : ℤ) : Option HoverData :=
  some ⟨some [⟨some i⟩]⟩

/-- The rate naming convention holds for the 2024 rate column. -/
theorem containsRate_legislator_rate : containsRate "legislator_rate" = true := by decide

/-- The rate naming convention holds for the 2025 rate column. -/
theorem containsRate_against_recall_rate : containsRate "against_recall_rate" = true := by decide

/-- The rate naming convention rejects the 2024 count column. -/
theorem containsRate_legislator_vote : containsRate "legislator_vote" = false := by decide

/-- The rate naming convention rejects the 2025 count column. -/
theorem containsRate_against_recall_vote : containsRate "against_recall_vote" = false := by decide

/-- Observed maximum of the density column of the sample dataset. -/
theorem sampleDf_colMax_density :
    sampleDf.colMax "legislator_total_voter_density" = 100 := by decide

/-- C1 counterexample: on a one-row dataset, the map hover is present but
carries the out-of-bounds index 5 while the upper-scatter hover carries the
valid index 0; the code resolves to no highlight, whereas the first event
present with a valid index is the upper-scatter one, index 0. -/
theorem resolve_highlight_priority_counterexample :
    resolveHighlightIndex 1 (hoverOn 5) (hoverOn 0) none none none = none ∧
    resolveHighlightClaimed 1 (hoverOn 5) (hoverOn 0) none none none = some 0 ∧
    resolveHighlightIndex 1 (hoverOn 5) (hoverOn 0) none none none ≠
      resolveHighlightClaimed 1 (hoverOn 5) (hoverOn 0) none none none := by
  decide

/-- C1 (amended): the resolved highlight index is determined by the first
hover event, in the order map, upper-scatter, lower-scatter,
cross-upper-scatter, cross-lower-scatter, that passes the presence guard;
that event's index is bound-checked and, if out of bounds, the result is no
highlight — lower-priority events are never consulted once a higher-priority
event is present. -/
theorem resolve_highlight_first_present_event (n : ℕ)
    (mapH upperH lowerH crossUpperH crossLowerH : Option HoverData) :
    resolveHighlightIndex n mapH upperH lowerH crossUpperH crossLowerH =
      resolveHighlightAmended n mapH upperH lowerH crossUpperH crossLowerH := by
  unfold resolveHighlightIndex resolveHighlightAmended
  by_cases h1 : hoverEligible mapH <;> by_cases h2 : hoverEligible upperH <;>
    by_cases h3 : hoverEligible lowerH <;> by_cases h4 : hoverEligible crossUpperH <;>
      by_cases h5 : hoverEligible crossLowerH <;>
    simp [h1, h2, h3, h4, h5, List.find?]

/-- C2 (code bug): with the scatter-category control unset, the combined
hover callback returns the four-element tuple of empty figures although the
callback declares five outputs, so the fifth (map) output never receives an
empty chart and the framework rejects the mismatched arity; the standalone
map renderer does return the empty figure on a missing column. -/
theorem callback_missing_selection_four_of_five_outputs :
    update_all_visualizations_with_highlight sampleDf none none none none none
        none (some "legislator_total_voter_density") (some "legislator_rate") none =
      some [Fig.blank, Fig.blank, Fig.blank, Fig.blank] ∧
    (update_all_visualizations_with_highlight sampleDf none none none none none
        none (some "legislator_total_voter_density") (some "legislator_rate")
        none).map List.length = some 4 ∧
    callbackDeclaredOutputs = 5 ∧
    4 ≠ callbackDeclaredOutputs ∧
    create_map_plot sampleDf none none none = MapFig.emptyFig := by
  decide

/-- C3 counterexample: on the sample dataset the x-axis column maximum is
100, and the computed x-range lower endpoint is -2, not the floor 0 the
documentation states. -/
theorem x_range_floor_counterexample :
    (calculate_consistent_ranges sampleDf "legislator_rate" "against_recall_rate"
        "legislator_total_voter_density").1.1 = -2 ∧
    (calculate_consistent_ranges sampleDf "legislator_rate" "against_recall_rate"
        "legislator_total_voter_density").1.1 ≠ 0 := by
  norm_num [calculate_consistent_ranges, sampleDf_colMax_density,
    containsRate_legislator_rate, containsRate_against_recall_rate]

/-- C3 (amended): for every dataset and x-axis column the computed x-range is
padded 2 percent of the observed maximum on both sides: the lower endpoint is
minus 2 percent of the column maximum and the upper endpoint is the column
maximum times 1.02. -/
theorem x_range_two_percent_padding (df : DataFrame)
    (upper_col lower_col x_axis_column : String) :
    (calculate_consistent_ranges df upper_col lower_col x_axis_column).1 =
      (-(df.colMax x_axis_column) * (2/100), df.colMax x_axis_column * (102/100)) := by
  unfold calculate_consistent_ranges
  split <;> rfl

/-- C4 (confirmed): when both selected measure columns match the rate naming
convention the shared y-range and color-range are fixed to [0, 1.05]
regardless of the data; otherwise both equal [0, max of the two observed
column maxima times 1.05]. -/
theorem shared_range_rate_convention (df : DataFrame)
    (upper_col lower_col x_axis_column : String) :
    (containsRate upper_col = true → containsRate lower_col = true →
      (calculate_consistent_ranges df upper_col lower_col x_axis_column).2 =
        ((0, 105/100), (0, 105/100))) ∧
    ((containsRate upper_col && containsRate lower_col) = false →
      (calculate_consistent_ranges df upper_col lower_col x_axis_column).2 =
        ((0, max (df.colMax upper_col) (df.colMax lower_col) * (105/100)),
         (0, max (df.colMax upper_col) (df.colMax lower_col) * (105/100)))) := by
  constructor
  · intro h1 h2
    simp [calculate_consistent_ranges, h1, h2]
  · intro h
    simp [calculate_consistent_ranges, h]

/-- C4 witness: on the sample dataset the rate pair gets the fixed [0, 1.05]
ranges and the count pair gets the shared observed-maximum ranges. -/
theorem shared_range_rate_convention_witness :
    (calculate_consistent_ranges sampleDf "legislator_rate" "against_recall_rate"
        "legislator_total_voter_density").2 = ((0, 105/100), (0, 105/100)) ∧
    (calculate_consistent_ranges sampleDf "legislator_vote" "against_recall_vote"
        "legislator_total_voter_density").2 =
      ((0, max (sampleDf.colMax "legislator_vote")
          (sampleDf.colMax "against_recall_vote") * (105/100)),
       (0, max (sampleDf.colMax "legislator_vote")
          (sampleDf.colMax "against_recall_vote") * (105/100))) :=
  ⟨(shared_range_rate_convention sampleDf "legislator_rate" "against_recall_rate"
      "legislator_total_voter_density").1 (by decide) (by decide),
   (shared_range_rate_convention sampleDf "legislator_vote" "against_recall_vote"
      "legislator_total_voter_density").2 (by decide)⟩

/-- C5 (confirmed): rendering with an in-bounds highlight index adds exactly
one overlay marker at the indexed row's (x, y) position on each scatter
chart, and on the map exactly the outline traces of the indexed row's
geometry (one trace for a single polygon); rendering with no highlight adds
no overlay anywhere. -/
theorem highlight_overlay_placement (df : DataFrame) (y_column x_column col : String)
    (xr yr cr : Option (ℚ × ℚ)) (t : Option String) (i : ℕ)
    (hlt : i < df.nrows) (hcol : col.isEmpty = false) :
    (create_scatter_plot df y_column x_column (some (i : ℤ)) xr yr cr).highlights =
      [((df.row i).get x_column, (df.row i).get y_column)] ∧
    (create_scatter_plot df y_column x_column none xr yr cr).highlights = [] ∧
    (create_cross_scatter_plot df x_column y_column (some (i : ℤ))).highlights =
      [((df.row i).get x_column, (df.row i).get y_column)] ∧
    (create_cross_scatter_plot df x_column y_column none).highlights = [] ∧
    (create_map_plot df (some col) (some (i : ℤ)) t).highlightTraces =
      geomHighlightTraces (df.row i).geometry ∧
    (create_map_plot df (some col) none t).highlightTraces = [] := by
  have hcond : (0 : ℤ) ≤ (i : ℤ) ∧ (i : ℤ) < (df.nrows : ℤ) := by
    exact ⟨Int.ofNat_nonneg i, by exact_mod_cast hlt⟩
  refine ⟨?_, rfl, ?_, rfl, ?_, ?_⟩
  · simp [create_scatter_plot, hcond]
  · simp [create_cross_scatter_plot, hcond]
  · simp [create_map_plot, MapFig.highlightTraces, falsyStr, hcol, hcond]
  · simp [create_map_plot, MapFig.highlightTraces, falsyStr, hcol]

/-- C5 witness: scatter, cross scatter and map highlight placement at row 0
of the sample dataset. -/
theorem highlight_overlay_placement_witness :
    (create_scatter_plot sampleDf "legislator_rate" "legislator_total_voter_density"
        (some ((0 : ℕ) : ℤ)) none none none).highlights =
      [((sampleDf.row 0).get "legislator_total_voter_density",
        (sampleDf.row 0).get "legislator_rate")] ∧
    (create_scatter_plot sampleDf "legislator_rate" "legislator_total_voter_density"
        none none none none).highlights = [] ∧
    (create_cross_scatter_plot sampleDf "legislator_total_voter_density"
        "legislator_rate" (some ((0 : ℕ) : ℤ))).highlights =
      [((sampleDf.row 0).get "legislator_total_voter_density",
        (sampleDf.row 0).get "legislator_rate")] ∧
    (create_cross_scatter_plot sampleDf "legislator_total_voter_density"
        "legislator_rate" none).highlights = [] ∧
    (create_map_plot sampleDf (some "legislator_rate")
        (some ((0 : ℕ) : ℤ)) none).highlightTraces =
      geomHighlightTraces (sampleDf.row 0).geometry ∧
    (create_map_plot sampleDf (some "legislator_rate") none none).highlightTraces =
      [] :=
  highlight_overlay_placement sampleDf "legislator_rate"
    "legislator_total_voter_density" "legislator_rate" none none none none 0
    (by decide) (by decide)

/-- C6 (confirmed): every out-of-bounds highlight index (negative or at least
the row count) renders identically to no highlight on the scatter chart, the
cross scatter chart and the map, with no error. -/
theorem invalid_highlight_like_no_highlight (df : DataFrame)
    (y_column x_column : String) (xr yr cr : Option (ℚ × ℚ))
    (sc t : Option String) (idx : ℤ)
    (hbad : idx < 0 ∨ (df.nrows : ℤ) ≤ idx) :
    create_scatter_plot df y_column x_column (some idx) xr yr cr =
      create_scatter_plot df y_column x_column none xr yr cr ∧
    create_cross_scatter_plot df x_column y_column (some idx) =
      create_cross_scatter_plot df x_column y_column none ∧
    create_map_plot df sc (some idx) t = create_map_plot df sc none t := by
  have hcond : ¬((0 : ℤ) ≤ idx ∧ idx < (df.nrows : ℤ)) := by omega
  refine ⟨?_, ?_, ?_⟩
  · simp [create_scatter_plot, hcond]
  · simp [create_cross_scatter_plot, hcond]
  · simp [create_map_plot, hcond]

/-- C6 witness: index -1 and index 3 on the three-row sample dataset render
like no highlight. -/
theorem invalid_highlight_like_no_highlight_witness :
    (create_scatter_plot sampleDf "legislator_rate" "legislator_total_voter_density"
        (some (-1)) none none none =
      create_scatter_plot sampleDf "legislator_rate" "legislator_total_voter_density"
        none none none none ∧
    create_cross_scatter_plot sampleDf "legislator_total_voter_density"
        "legislator_rate" (some (-1)) =
      create_cross_scatter_plot sampleDf "legislator_total_voter_density"
        "legislator_rate" none ∧
    create_map_plot sampleDf (some "legislator_rate") (some (-1)) none =
      create_map_plot sampleDf (some "legislator_rate") none none) ∧
    create_map_plot sampleDf (some "legislator_rate") (some 3) none =
      create_map_plot sampleDf (some "legislator_rate") none none :=
  ⟨invalid_highlight_like_no_highlight sampleDf "legislator_rate"
      "legislator_total_voter_density" none none none (some "legislator_rate")
      none (-1) (by decide),
   (invalid_highlight_like_no_highlight sampleDf "legislator_rate"
      "legislator_total_voter_density" none none none (some "legislator_rate")
      none 3 (by decide)).2.2⟩

/-- C7 (confirmed): the incremental map path keeps exactly the previous
figure's traces whose name does not start with "Highlighted", unchanged and
in order, and appends the outline traces of the highlighted row's geometry
exactly when a highlight index is set — one trace per part for a
multi-polygon, a single trace for a single polygon; every trace named with
the highlight marker is removed from the previous figure. -/
theorem incremental_map_update_traces (df : DataFrame) (currentTraces : List Trace) :
    updateMapIncremental df currentTraces none =
      currentTraces.filter (fun t => !(t.name.startsWith "Highlighted")) ∧
    (∀ i, updateMapIncremental df currentTraces (some i) =
      currentTraces.filter (fun t => !(t.name.startsWith "Highlighted")) ++
        geomHighlightTraces (df.row i).geometry) ∧
    (stripHighlightTraces currentTraces).all
      (fun t => !(t.name.startsWith "Highlighted")) = true ∧
    (∀ parts, (geomHighlightTraces (Geometry.multiPolygon parts)).length =
      parts.length) ∧
    (∀ exterior, geomHighlightTraces (Geometry.polygon exterior) =
      [⟨"Highlighted", exterior⟩]) := by
  refine ⟨rfl, fun i => rfl, ?_, ?_, fun exterior => rfl⟩
  · simp only [stripHighlightTraces, List.all_eq_true, List.mem_filter]
    intro t ht
    exact ht.2
  · intro parts
    simp [geomHighlightTraces]

/-- C8 (confirmed): the cross scatter diagonal reference line runs from
(r0, r0) to (r1, r1) where [r0, r1] is the shared axis range
[0, max(x column max, y column max) * 1.05], and both axes are set to that
same range, so the line spans exactly the visible plot area. -/
theorem cross_scatter_diagonal_spans_axes (df : DataFrame)
    (x_column y_column : String) (hi : Option ℤ) :
    (create_cross_scatter_plot df x_column y_column hi).xRange =
      (0, max (df.colMax x_column) (df.colMax y_column) * (105/100)) ∧
    (create_cross_scatter_plot df x_column y_column hi).yRange =
      (create_cross_scatter_plot df x_column y_column hi).xRange ∧
    (create_cross_scatter_plot df x_column y_column hi).diagonal =
      (((create_cross_scatter_plot df x_column y_column hi).xRange.1,
        (create_cross_scatter_plot df x_column y_column hi).xRange.1),
       ((create_cross_scatter_plot df x_column y_column hi).xRange.2,
        (create_cross_scatter_plot df x_column y_column hi).xRange.2)) :=
  ⟨rfl, rfl, rfl⟩

/-- C9 (confirmed): the shared-range computation is a pure function of the
dataset and the three selected columns, so two invocations with the same
arguments return identical range tuples. -/
theorem shared_range_idempotent (df : DataFrame)
    (upper_col lower_col x_axis_column : String) :
    calculate_consistent_ranges df upper_col lower_col x_axis_column =
      calculate_consistent_ranges df upper_col lower_col x_axis_column :=
  rfl

/-- C10 (confirmed): the cross scatter renderer never applies the rate-column
convention — for every column pair, rate-named or not, the color scale is the
sequential Viridis scale (never the diverging RdYlGn) and both axis ranges
follow the shared formula [0, max(x max, y max) * 1.05]. -/
theorem cross_scatter_ignores_rate_convention (df : DataFrame)
    (x_column y_column : String) (hi : Option ℤ) :
    (create_cross_scatter_plot df x_column y_column hi).colorScale = "Viridis" ∧
    (create_cross_scatter_plot df x_column y_column hi).colorScale ≠ "RdYlGn" ∧
    (create_cross_scatter_plot df x_column y_column hi).xRange =
      (0, max (df.colMax x_column) (df.colMax y_column) * (105/100)) ∧
    (create_cross_scatter_plot df x_column y_column hi).yRange =
      (0, max (df.colMax x_column) (df.colMax y_column) * (105/100)) := by
  refine ⟨rfl, ?_, rfl, rfl⟩
  show ("Viridis" : String) ≠ "RdYlGn"
  decide
